import Mathlib

/-!
Verification of the Edge phone-brain webhook handler (`main.py`).

The development shallowly embeds the Python source: the per-call session
dictionary becomes `CallState`, the process-wide `call_state` dict becomes a
function `Store`, the Twilio webhook form becomes `Form`, and the TwiML
response built by the handler becomes a list of `Verb`s.  The two external
effects — the OpenAI generation call inside `ai_reply` and the Twilio SMS
dispatch inside the step-2 branch — are modelled as explicit oracles passed to
the handler (`gen` for generation, `smsOk` for whether `messages.create`
succeeds); the Python `try/except` blocks around them become total handling of
the oracle outcome.
-/

/-- ASCII whitespace stripped by Python `str.strip()` with no arguments
(space, tab, newline, carriage return, vertical tab, form feed). -/
def pyWSChar (c : Char) : Bool :=
  c = ' ' || c = '\t' || c = '\n' || c = '\r' || c = '\x0b' || c = '\x0c'

/-- Shallow embedding of Python `str.strip()`: drop whitespace characters from
both ends of the string. -/
def pyStrip (s : String) : String :=
  ⟨(((s.data.dropWhile pyWSChar).reverse.dropWhile pyWSChar).reverse)⟩

/-- Python truthiness of an optional string (`None` and `""` are falsy). -/
def pyTruthy : Option String → Bool
  | none => false
  | some s => s != ""

/-- Python `a or b` specialised to an optional string `a` (as returned by
`form.get(...)`) and a plain-string default `b`. -/
def pyOrDefault (a : Option String) (b : String) : String :=
  match a with
  | none => b
  | some s => if s = "" then b else s

/-- Python `speech or state[slot]` where `speech` is a string and the stored
slot is `None` or a string: keep the old slot value when `speech` is empty. -/
def pyOrOpt (speech : String) (old : Option String) : Option String :=
  if speech = "" then old else some speech

/-- Python f-string interpolation of a value that is `None` or a string. -/
def pyShowOpt : Option String → String
  | none => "None"
  | some s => s

/-- The fields of the Twilio webhook POST form that `main.py` reads.
`none` models an absent key; `some v` models a present key with value `v`. -/
structure Form where
  callSid : Option String
  fromNumber : Option String
  speechResultUC : Option String
  speechResultLC : Option String

/-- One per-call session dictionary, as created by
`get_or_create_call_state`: keys `step`, `service`, `name`, `time_pref`.
`step` is a Python int, so it is modelled as `Int`. -/
structure CallState where
  step : Int
  service : Option String
  name : Option String
  time_pref : Option String
deriving DecidableEq

/-- The freshly initialised session dictionary. -/
def initState : CallState := { step := 0, service := none, name := none, time_pref := none }

/-- The process-wide `call_state` dict, keyed by CallSid. -/
def Store : Type := String → Option CallState

/-- The empty `call_state` dict at process start. -/
def emptyStore : Store := fun _ => none

/-- `call_state[sid] = st` (dict insert/overwrite). -/
def storeSet (store : Store) (sid : String) (st : CallState) : Store :=
  fun k => if k = sid then some st else store k

/-- `call_state.pop(sid, None)` (dict removal, no-op if absent). -/
def storePop (store : Store) (sid : String) : Store :=
  fun k => if k = sid then none else store k

/-- `get_or_create_call_state`: return the existing session for `call_sid`,
or default-initialise one, together with the store after the call. -/
def get_or_create_call_state (store : Store) (call_sid : String) : CallState × Store :=
  match store call_sid with
  | some st => (st, store)
  | none => (initState, storeSet store call_sid initState)

/-- `get_speech`: extract and strip the recognised utterance from the form,
`form.get("SpeechResult") or form.get("speechResult") or ""`, then `.strip()`. -/
def get_speech (form : Form) : String :=
  pyStrip (pyOrDefault form.speechResultUC (pyOrDefault form.speechResultLC ""))

/-- Outcome of one OpenAI generation request: `.ok raw` is a successful
response whose extracted text is `raw`; `.error ()` is any failure (timeout,
error response, malformed result — anything the `except` clause catches). -/
def GenOracle : Type := String → Except Unit String

/-- `ai_reply`: ask the generation oracle for a reply to `user_instruction`;
on success return the stripped text, on any failure return the fixed fallback
line from the `except` branch. -/
def ai_reply (user_instruction : String) (gen : GenOracle) : String :=
  match gen user_instruction with
  | .ok text => pyStrip text
  | .error _ => "Got you. I can help with that."

/-- One TwiML verb of the response document.  Each `Gather` in the source
contains exactly one nested `Say`, recorded here as `prompt`/`promptVoice`. -/
inductive Verb where
  | say (text : String) (voice : String)
  | gather (timeout : Nat) (action : String) (method : String)
      (prompt : String) (promptVoice : String)
  | hangup
deriving DecidableEq

/-- An outbound SMS as passed to `twilio_client.messages.create`. -/
structure Sms where
  body : String
  fromNum : String
  toNum : String
deriving DecidableEq

/-- Environment configuration read at process start. -/
structure Config where
  twilioNumber : Option String
  bookingUrl : Option String

/-- Result of one webhook turn: the TwiML response, the `call_state` dict
after the turn, the session dictionary as it stands at the end of the turn
(`none` when the CallSid was missing so no session was touched), and the SMS
dispatched by the step-2 branch (`none` if not attempted or failed). -/
structure TurnResult where
  resp : List Verb
  store : Store
  sess : Option CallState
  sms : Option Sms

/-- Voice used by every `say`. -/
def pollyVoice : String := "Polly.Matthew"

/-- Line spoken when the webhook has no usable CallSid. -/
def noTrackLine : String :=
  "Grooming Company. This is Edge, the shop\x27s digital assistant. Please call back from a valid number."

/-- Greeting prompt of the first turn. -/
def greetLine : String :=
  "Grooming Company. This is Edge, the shop\x27s digital assistant. What can I help you with today?"

/-- Re-prompt fallback line placed after every `Gather`. -/
def sorryLine : String :=
  "I\x27m sorry, I didn\x27t catch that. Please call back when you\x27re ready."

/-- Prompt of the step-0 → step-1 gather. -/
def namePrompt : String := "Please tell me your first name."

/-- Prompt of the step-1 → step-2 gather. -/
def timePrompt : String := "What day and time works best for your appointment?"

/-- Closing line of the terminal (step-2) turn. -/
def confirmLine (time_pref : Option String) : String :=
  "Perfect. I’ve noted that for " ++ pyShowOpt time_pref ++
    ". I just sent a booking link to your phone so you can pick your exact time and complete payment. Thank you for calling Grooming Company. Goodbye."

/-- Line of the final fallback branch. -/
def wrongLine : String :=
  "I\x27m sorry, something went wrong. Please call back and we’ll get you taken care of."

/-- Instruction handed to `ai_reply` in the step-0 branch. -/
def instruction0 (speech : String) : String :=
  "The caller just said: \"" ++ speech ++
    "\". Acknowledge what they want in a natural way in 1–2 sentences, then smoothly ask for their first name."

/-- Instruction handed to `ai_reply` in the step-1 branch. -/
def instruction1 (name : Option String) : String :=
  "The caller\x27s name is \"" ++ pyShowOpt name ++
    "\". Acknowledge them by name in a natural way, then ask what day and time works best for their appointment. Keep it to 1–2 sentences."

/-- Body of the booking SMS. -/
def smsBody (service time_pref : Option String) (bookingUrl : String) : String :=
  "Thanks for calling Grooming Company. We noted: " ++ pyShowOpt service ++
    " for " ++ pyShowOpt time_pref ++
    ". Use this link to complete your booking: " ++ bookingUrl

/-- The `/twilio/voice` webhook handler, translated branch by branch from
`main.py`.  `gen` is the OpenAI oracle consumed by `ai_reply`; `smsOk` tells
whether `twilio_client.messages.create` succeeds when reached (if it raises,
the exception is caught and no SMS is recorded). -/
def twilio_voice (cfg : Config) (call_state : Store) (form : Form)
    (gen : GenOracle) (smsOk : Bool) : TurnResult :=
  if pyTruthy form.callSid = false then
    { resp := [Verb.say noTrackLine pollyVoice, Verb.hangup],
      store := call_state, sess := none, sms := none }
  else
    let call_sid := form.callSid.getD ""
    let created := get_or_create_call_state call_state call_sid
    let state := created.1
    let store0 := created.2
    let step := state.step
    let speech := get_speech form
    if speech = "" ∧ step = 0 ∧ form.speechResultUC = none then
      { resp := [Verb.gather 5 "/twilio/voice" "POST" greetLine pollyVoice,
                 Verb.say sorryLine pollyVoice],
        store := store0, sess := some state, sms := none }
    else if step = 0 then
      let state1 := { state with service := pyOrOpt speech state.service }
      let edge_text := ai_reply (instruction0 speech) gen
      let state2 := { state1 with step := 1 }
      { resp := [Verb.say edge_text pollyVoice,
                 Verb.gather 5 "/twilio/voice" "POST" namePrompt pollyVoice,
                 Verb.say sorryLine pollyVoice],
        store := storeSet store0 call_sid state2, sess := some state2, sms := none }
    else if step = 1 then
      let state1 := { state with name := pyOrOpt speech state.name }
      let edge_text := ai_reply (instruction1 state1.name) gen
      let state2 := { state1 with step := 2 }
      { resp := [Verb.say edge_text pollyVoice,
                 Verb.gather 5 "/twilio/voice" "POST" timePrompt pollyVoice,
                 Verb.say sorryLine pollyVoice],
        store := storeSet store0 call_sid state2, sess := some state2, sms := none }
    else if step = 2 then
      let state1 := { state with time_pref := pyOrOpt speech state.time_pref }
      let sms :=
        if pyTruthy form.fromNumber && pyTruthy cfg.twilioNumber &&
            pyTruthy cfg.bookingUrl && smsOk then
          some { body := smsBody state1.service state1.time_pref (cfg.bookingUrl.getD ""),
                 fromNum := cfg.twilioNumber.getD "",
                 toNum := form.fromNumber.getD "" }
        else none
      { resp := [Verb.say (confirmLine state1.time_pref) pollyVoice, Verb.hangup],
        store := storePop store0 call_sid, sess := some state1, sms := sms }
    else
      { resp := [Verb.say wrongLine pollyVoice, Verb.hangup],
        store := storePop store0 call_sid, sess := some state, sms := none }

/-! ### Concrete fixtures used by witnesses and counterexamples -/

/-- A fully populated environment configuration. -/
def cfgA : Config :=
  { twilioNumber := some "+15551230000", bookingUrl := some "https://booking.example/link" }

/-- A generation oracle that always fails. -/
def genErr : GenOracle := fun _ => .error ()

/-- A generation oracle that always succeeds with a fixed line. -/
def genOk : GenOracle := fun _ => .ok "Sure thing, got it."

def formC6 : Form :=
  { callSid := none, fromNumber := some "+15550001111",
    speechResultUC := some "hi", speechResultLC := none }

def formC7 : Form :=
  { callSid := some "CA7", fromNumber := some "+15550001111",
    speechResultUC := none, speechResultLC := none }

def formC8 : Form :=
  { callSid := some "CA8", fromNumber := none,
    speechResultUC := some "  hello ", speechResultLC := none }

def stC10 : CallState := { step := -1, service := none, name := none, time_pref := none }

def formC10 : Form :=
  { callSid := some "CA10", fromNumber := none,
    speechResultUC := some "hello", speechResultLC := none }

/-- A session sitting at step 1 with the service slot already filled. -/
def stC1 : CallState := { step := 1, service := some "cut", name := none, time_pref := none }

/-- A webhook turn for that session whose recognised speech is present but
empty (a recognition attempt was made and produced nothing). -/
def formC1 : Form :=
  { callSid := some "CA1", fromNumber := some "+15550001111",
    speechResultUC := some "", speechResultLC := none }

def storeC1 : Store := storeSet emptyStore "CA1" stC1

/-- A first-turn webhook whose recognised speech is present but empty. -/
def formC2 : Form :=
  { callSid := some "CA2", fromNumber := none,
    speechResultUC := some "", speechResultLC := none }

def formC3a : Form :=
  { callSid := some "CA3", fromNumber := some "+15557654321",
    speechResultUC := some "taper and line up", speechResultLC := none }

def formC3b : Form :=
  { callSid := some "CA3", fromNumber := some "+15557654321",
    speechResultUC := some "Marcus", speechResultLC := none }

def formC3c : Form :=
  { callSid := some "CA3", fromNumber := some "+15557654321",
    speechResultUC := some "Saturday at 2", speechResultLC := none }

def stC5 : CallState :=
  { step := 2, service := some "cut", name := some "Marcus", time_pref := none }

def formC5 : Form :=
  { callSid := some "CA5", fromNumber := some "+15550001111",
    speechResultUC := some "tomorrow at noon", speechResultLC := none }

def storeC5 : Store := storeSet emptyStore "CA5" stC5

def stC9 : CallState := { step := 1, service := some "cut", name := none, time_pref := none }

/-- A step-1 turn with empty extracted speech. -/
def formC9 : Form :=
  { callSid := some "CA9", fromNumber := none,
    speechResultUC := some "", speechResultLC := none }

def storeC9 : Store := storeSet emptyStore "CA9" stC9

/-- The session after the `formC9` turn: step advanced, slots untouched. -/
def stC9b : CallState := { step := 2, service := some "cut", name := none, time_pref := none }

/-- Number of filled (non-null) slots of a session. -/
def optCount : Option String → Nat
  | none => 0
  | some _ => 1

/-- Total number of filled slots among `service`, `name`, `time_pref`. -/
def slotCount (st : CallState) : Nat :=
  optCount st.service + optCount st.name + optCount st.time_pref

/-- The invariant that actually holds of every reachable store: each live
session has at most `step` filled slots, and `step` stays in `{0, 1, 2}`. -/
def StoreInv (store : Store) : Prop :=
  ∀ sid st, store sid = some st → (slotCount st : Int) ≤ st.step ∧ st.step ≤ 2

/-- Stores reachable from the empty store at process start by any sequence of
webhook turns (arbitrary forms and oracle outcomes), under a fixed
configuration. -/
inductive Reachable (cfg : Config) : Store → Prop
  | init : Reachable cfg emptyStore
  | step (store : Store) (form : Form) (gen : GenOracle) (smsOk : Bool) :
      Reachable cfg store → Reachable cfg ((twilio_voice cfg store form gen smsOk).store)

/-! ### Helper lemmas about `pyStrip`, strings and the store -/

lemma dropWhile_head_false {p : Char → Bool} :
    ∀ (l : List Char) (a : Char) (t : List Char), l.dropWhile p = a :: t → p a = false := by
  intro l
  induction l with
  | nil => intro a t h; simp [List.dropWhile] at h
  | cons b u ih =>
    intro a t h
    by_cases hb : p b
    · rw [List.dropWhile_cons, if_pos hb] at h
      exact ih a t h
    · rw [List.dropWhile_cons, if_neg hb] at h
      cases h
      exact Bool.eq_false_iff.mpr hb

lemma dropWhile_dropWhile (p : Char → Bool) (l : List Char) :
    (l.dropWhile p).dropWhile p = l.dropWhile p := by
  cases h : l.dropWhile p with
  | nil => rfl
  | cons a t =>
    rw [List.dropWhile_cons, if_neg]
    rw [dropWhile_head_false l a t h]
    simp

/-- A left-stripped list stays stripped after stripping from the right:
the right strip only shortens the list, so the head still fails `p`. -/
lemma strip_list_A (p : Char → Bool) (l : List Char) (hl : l.dropWhile p = l) :
    ((l.reverse.dropWhile p).reverse).dropWhile p = (l.reverse.dropWhile p).reverse := by
  cases hcase : (l.reverse.dropWhile p).reverse with
  | nil => simp
  | cons a t =>
    have hsplit : l.reverse.takeWhile p ++ l.reverse.dropWhile p = l.reverse :=
      List.takeWhile_append_dropWhile p l.reverse
    have hdecomp : (l.reverse.dropWhile p).reverse ++ (l.reverse.takeWhile p).reverse = l := by
      have h := congrArg List.reverse hsplit
      rw [List.reverse_append, List.reverse_reverse] at h
      exact h
    have hlcons : l.dropWhile p = a :: (t ++ (l.reverse.takeWhile p).reverse) := by
      conv_lhs => rw [hl, ← hdecomp, hcase]
      simp
    have hpa : p a = false := dropWhile_head_false l a _ hlcons
    rw [List.dropWhile_cons, if_neg]
    rw [hpa]
    simp

/-- `pyStrip` is idempotent: a stripped string has no surrounding whitespace. -/
lemma pyStrip_pyStrip (s : String) : pyStrip (pyStrip s) = pyStrip s := by
  unfold pyStrip
  congr 1
  have hA := strip_list_A pyWSChar (s.data.dropWhile pyWSChar)
    (dropWhile_dropWhile pyWSChar s.data)
  show ((((((s.data.dropWhile pyWSChar).reverse.dropWhile pyWSChar).reverse).dropWhile
      pyWSChar).reverse.dropWhile pyWSChar).reverse) = _
  rw [hA, List.reverse_reverse, dropWhile_dropWhile]

/-- A string with a non-empty left factor is non-empty. -/
lemma append_ne_empty_left (s t : String) (h : s ≠ "") : s ++ t ≠ "" := by
  intro hc
  apply h
  have hd := congrArg String.data hc
  rw [String.data_append s t] at hd
  have hs : s.data = [] := (List.append_eq_nil.mp hd).1
  cases s
  simp_all

lemma storeSet_same (store : Store) (sid : String) (st : CallState) :
    storeSet store sid st sid = some st := by
  simp [storeSet]

lemma storeSet_other (store : Store) (sid k : String) (st : CallState) (h : k ≠ sid) :
    storeSet store sid st k = store k := by
  simp [storeSet, h]

lemma storePop_same (store : Store) (sid : String) : storePop store sid sid = none := by
  simp [storePop]

lemma storePop_other (store : Store) (sid k : String) (h : k ≠ sid) :
    storePop store sid k = store k := by
  simp [storePop, h]

lemma storeSet_storeSet (store : Store) (sid : String) (a b : CallState) :
    storeSet (storeSet store sid a) sid b = storeSet store sid b := by
  funext k
  by_cases h : k = sid <;> simp [storeSet, h]

lemma storePop_storeSet (store : Store) (sid : String) (a : CallState) :
    storePop (storeSet store sid a) sid = storePop store sid := by
  funext k
  by_cases h : k = sid <;> simp [storePop, storeSet, h]

lemma get_or_create_eq (store : Store) (sid : String) :
    get_or_create_call_state store sid =
      ((store sid).getD initState, storeSet store sid ((store sid).getD initState)) := by
  unfold get_or_create_call_state
  cases h : store sid with
  | none => simp
  | some st =>
    simp only [Option.getD_some]
    have h2 : storeSet store sid st = store := by
      funext k
      by_cases hk : k = sid <;> simp [storeSet, hk, h]
    rw [h2]

/-! ### Branch characterisation of `twilio_voice` -/

lemma turn_no_callsid (cfg : Config) (store : Store) (form : Form) (gen : GenOracle)
    (smsOk : Bool) (h : pyTruthy form.callSid = false) :
    twilio_voice cfg store form gen smsOk =
      { resp := [Verb.say noTrackLine pollyVoice, Verb.hangup],
        store := store, sess := none, sms := none } := by
  unfold twilio_voice
  rw [h]
  simp

lemma turn_greeting (cfg : Config) (store : Store) (form : Form) (gen : GenOracle)
    (smsOk : Bool) (sid : String) (st : CallState)
    (hsid : form.callSid = some sid) (hne : sid ≠ "")
    (hst : (store sid).getD initState = st)
    (hsp : get_speech form = "") (hstep : st.step = 0) (huc : form.speechResultUC = none) :
    twilio_voice cfg store form gen smsOk =
      { resp := [Verb.gather 5 "/twilio/voice" "POST" greetLine pollyVoice,
                 Verb.say sorryLine pollyVoice],
        store := storeSet store sid st, sess := some st, sms := none } := by
  have hb : (sid != "") = true := bne_iff_ne.mpr hne
  unfold twilio_voice
  rw [hsid]
  simp only [pyTruthy, hb, Option.getD_some, get_or_create_eq, hst]
  rw [if_neg (by simp)]
  rw [if_pos ⟨hsp, hstep, huc⟩]

lemma turn_step0 (cfg : Config) (store : Store) (form : Form) (gen : GenOracle)
    (smsOk : Bool) (sid : String) (st : CallState)
    (hsid : form.callSid = some sid) (hne : sid ≠ "")
    (hst : (store sid).getD initState = st)
    (hstep : st.step = 0)
    (hguard : ¬(get_speech form = "" ∧ form.speechResultUC = none)) :
    twilio_voice cfg store form gen smsOk =
      { resp := [Verb.say (ai_reply (instruction0 (get_speech form)) gen) pollyVoice,
                 Verb.gather 5 "/twilio/voice" "POST" namePrompt pollyVoice,
                 Verb.say sorryLine pollyVoice],
        store := storeSet store sid
          { st with service := pyOrOpt (get_speech form) st.service, step := 1 },
        sess := some { st with service := pyOrOpt (get_speech form) st.service, step := 1 },
        sms := none } := by
  have hb : (sid != "") = true := bne_iff_ne.mpr hne
  unfold twilio_voice
  rw [hsid]
  simp only [pyTruthy, hb, Option.getD_some, get_or_create_eq, hst]
  rw [if_neg (by simp)]
  rw [if_neg (by intro hc; exact hguard ⟨hc.1, hc.2.2⟩)]
  rw [if_pos hstep]
  simp only [storeSet_storeSet]

lemma turn_step1 (cfg : Config) (store : Store) (form : Form) (gen : GenOracle)
    (smsOk : Bool) (sid : String) (st : CallState)
    (hsid : form.callSid = some sid) (hne : sid ≠ "")
    (hst : (store sid).getD initState = st)
    (hstep : st.step = 1) :
    twilio_voice cfg store form gen smsOk =
      { resp := [Verb.say
                   (ai_reply (instruction1 (pyOrOpt (get_speech form) st.name)) gen) pollyVoice,
                 Verb.gather 5 "/twilio/voice" "POST" timePrompt pollyVoice,
                 Verb.say sorryLine pollyVoice],
        store := storeSet store sid
          { st with name := pyOrOpt (get_speech form) st.name, step := 2 },
        sess := some { st with name := pyOrOpt (get_speech form) st.name, step := 2 },
        sms := none } := by
  have hb : (sid != "") = true := bne_iff_ne.mpr hne
  have h10 : st.step ≠ 0 := by rw [hstep]; decide
  unfold twilio_voice
  rw [hsid]
  simp only [pyTruthy, hb, Option.getD_some, get_or_create_eq, hst]
  rw [if_neg (by simp)]
  rw [if_neg (by intro hc; exact h10 hc.2.1)]
  rw [if_neg h10]
  rw [if_pos hstep]
  simp only [storeSet_storeSet]

lemma turn_step2 (cfg : Config) (store : Store) (form : Form) (gen : GenOracle)
    (smsOk : Bool) (sid : String) (st : CallState)
    (hsid : form.callSid = some sid) (hne : sid ≠ "")
    (hst : (store sid).getD initState = st)
    (hstep : st.step = 2) :
    twilio_voice cfg store form gen smsOk =
      { resp := [Verb.say
                   (confirmLine (pyOrOpt (get_speech form) st.time_pref)) pollyVoice,
                 Verb.hangup],
        store := storePop store sid,
        sess := some { st with time_pref := pyOrOpt (get_speech form) st.time_pref },
        sms := if pyTruthy form.fromNumber && pyTruthy cfg.twilioNumber &&
                   pyTruthy cfg.bookingUrl && smsOk then
                 some { body := smsBody st.service (pyOrOpt (get_speech form) st.time_pref)
                          (cfg.bookingUrl.getD ""),
                        fromNum := cfg.twilioNumber.getD "",
                        toNum := form.fromNumber.getD "" }
               else none } := by
  have hb : (sid != "") = true := bne_iff_ne.mpr hne
  have h20 : st.step ≠ 0 := by rw [hstep]; decide
  have h21 : st.step ≠ 1 := by rw [hstep]; decide
  unfold twilio_voice
  rw [hsid]
  simp only [pyTruthy, hb, Option.getD_some, get_or_create_eq, hst]
  rw [if_neg (by simp)]
  rw [if_neg (by intro hc; exact h20 hc.2.1)]
  rw [if_neg h20]
  rw [if_neg h21]
  rw [if_pos hstep]
  simp only [storePop_storeSet]

lemma turn_fallback_step (cfg : Config) (store : Store) (form : Form) (gen : GenOracle)
    (smsOk : Bool) (sid : String) (st : CallState)
    (hsid : form.callSid = some sid) (hne : sid ≠ "")
    (hst : (store sid).getD initState = st)
    (h0 : st.step ≠ 0) (h1 : st.step ≠ 1) (h2 : st.step ≠ 2) :
    twilio_voice cfg store form gen smsOk =
      { resp := [Verb.say wrongLine pollyVoice, Verb.hangup],
        store := storePop store sid, sess := some st, sms := none } := by
  have hb : (sid != "") = true := bne_iff_ne.mpr hne
  unfold twilio_voice
  rw [hsid]
  simp only [pyTruthy, hb, Option.getD_some, get_or_create_eq, hst]
  rw [if_neg (by simp)]
  rw [if_neg (by intro hc; exact h0 hc.2.1)]
  rw [if_neg h0]
  rw [if_neg h1]
  rw [if_neg h2]
  simp only [storePop_storeSet]

/-! ### Claim theorems -/

/-- C6: a webhook request that arrives without a call identifier is answered
with the generic message followed by hangup, and the call-state store is
unchanged (no session is created). -/
theorem C6_missing_callsid (cfg : Config) (store : Store) (form : Form)
    (gen : GenOracle) (smsOk : Bool) (h : form.callSid = none) :
    (twilio_voice cfg store form gen smsOk).resp =
      [Verb.say noTrackLine pollyVoice, Verb.hangup] ∧
    (twilio_voice cfg store form gen smsOk).store = store := by
  have hr := turn_no_callsid cfg store form gen smsOk (by rw [h]; rfl)
  rw [hr]
  exact ⟨rfl, rfl⟩

theorem C6_missing_callsid_witness :
    (twilio_voice cfgA emptyStore formC6 genErr true).store = emptyStore :=
  (C6_missing_callsid cfgA emptyStore formC6 genErr true rfl).2

/-- C7: on the very first webhook turn of a call (session not yet present,
hence at step 0 once created) in which the recognised-speech field is entirely
absent, the response is the greeting prompt-and-listen, and the session stays
at step 0 with no slot filled. -/
theorem C7_first_turn_greeting (cfg : Config) (store : Store) (gen : GenOracle)
    (smsOk : Bool) (sid : String) (form : Form)
    (hsid : form.callSid = some sid) (hne : sid ≠ "")
    (hstore : store sid = none)
    (huc : form.speechResultUC = none) (hlc : form.speechResultLC = none) :
    (twilio_voice cfg store form gen smsOk).resp =
      [Verb.gather 5 "/twilio/voice" "POST" greetLine pollyVoice,
       Verb.say sorryLine pollyVoice] ∧
    (twilio_voice cfg store form gen smsOk).store sid = some initState ∧
    (twilio_voice cfg store form gen smsOk).sess = some initState := by
  have hsp : get_speech form = "" := by
    unfold get_speech
    rw [huc, hlc]
    decide
  have hr := turn_greeting cfg store form gen smsOk sid initState hsid hne
    (by rw [hstore]; rfl) hsp rfl huc
  rw [hr]
  exact ⟨rfl, storeSet_same store sid initState, rfl⟩

theorem C7_first_turn_greeting_witness :
    (twilio_voice cfgA emptyStore formC7 genErr true).sess = some initState :=
  (C7_first_turn_greeting cfgA emptyStore genErr true "CA7" formC7 rfl (by decide)
    rfl rfl rfl).2.2

/-- C8: speech extraction returns the recognised-utterance field's value with
surrounding whitespace removed, returns the empty string whenever every
present speech field is blank (absent fields impose no condition), and its
result carries no surrounding whitespace (`pyStrip` fixes it).  The embedding
is a total function, so extraction never fails. -/
theorem C8_get_speech_contract (form : Form) :
    pyStrip (get_speech form) = get_speech form ∧
    (∀ v, form.speechResultUC = some v → v ≠ "" → get_speech form = pyStrip v) ∧
    ((∀ v, form.speechResultUC = some v → pyStrip v = "") →
     (∀ w, form.speechResultLC = some w → pyStrip w = "") →
     get_speech form = "") := by
  refine ⟨pyStrip_pyStrip _, ?_, ?_⟩
  · intro v huc hv
    unfold get_speech
    rw [huc]
    simp [pyOrDefault, hv]
  · intro h1 h2
    unfold get_speech pyOrDefault
    cases huc : form.speechResultUC with
    | none =>
      cases hlc : form.speechResultLC with
      | none => decide
      | some w =>
        by_cases hw : w = ""
        · simp [hw]
          decide
        · simp [hw]
          exact h2 w hlc
    | some v =>
      by_cases hv : v = ""
      · simp only [hv, if_pos rfl]
        cases hlc : form.speechResultLC with
        | none => decide
        | some w =>
          by_cases hw : w = ""
          · simp [hw]
            decide
          · simp [hw]
            exact h2 w hlc
      · simp [hv]
        exact h1 v huc

theorem C8_get_speech_contract_witness :
    get_speech formC8 = pyStrip "  hello " :=
  (C8_get_speech_contract formC8).2.1 "  hello " rfl (by decide)

/-- C10: for a session whose `step` is outside `{0, 1, 2}`, the handler
reaches the final fallback branch: it answers with the apology-and-hangup
response and removes the session from the store. -/
theorem C10_fallback_total (cfg : Config) (store : Store) (gen : GenOracle)
    (smsOk : Bool) (sid : String) (st : CallState) (form : Form)
    (hsid : form.callSid = some sid) (hne : sid ≠ "")
    (hstore : store sid = some st)
    (hstep : ¬(st.step = 0 ∨ st.step = 1 ∨ st.step = 2)) :
    (twilio_voice cfg store form gen smsOk).resp =
      [Verb.say wrongLine pollyVoice, Verb.hangup] ∧
    (twilio_voice cfg store form gen smsOk).store sid = none := by
  push_neg at hstep
  have hr := turn_fallback_step cfg store form gen smsOk sid st hsid hne
    (by rw [hstore]; rfl) hstep.1 hstep.2.1 hstep.2.2
  rw [hr]
  exact ⟨rfl, storePop_same store sid⟩

theorem C10_fallback_total_witness :
    (twilio_voice cfgA (storeSet emptyStore "CA10" stC10) formC10 genErr true).store
      "CA10" = none :=
  (C10_fallback_total cfgA (storeSet emptyStore "CA10" stC10) genErr true "CA10" stC10
    formC10 rfl (by decide) (by decide) (by decide)).2

/-- `speech or old` either keeps the old value or stores a non-empty string. -/
lemma pyOrOpt_cases (sp : String) (old : Option String) :
    pyOrOpt sp old = old ∨ (sp ≠ "" ∧ pyOrOpt sp old = some sp) := by
  by_cases h : sp = ""
  · left
    simp [pyOrOpt, h]
  · right
    exact ⟨h, by simp [pyOrOpt, h]⟩

lemma pyOrOpt_empty (old : Option String) : pyOrOpt "" old = old := by
  simp [pyOrOpt]

/-- The terminal confirmation line is never the empty utterance. -/
lemma confirmLine_ne_empty (tp : Option String) : confirmLine tp ≠ "" := by
  unfold confirmLine
  exact append_ne_empty_left _ _ (append_ne_empty_left _ _ (by decide))

/-- Every `Say` text of any webhook response is one of: the fixed lines, an
`ai_reply` output, or a terminal confirmation line. -/
lemma turn_resp_says (cfg : Config) (store : Store) (form : Form) (gen : GenOracle)
    (smsOk : Bool) (t v : String)
    (hmem : Verb.say t v ∈ (twilio_voice cfg store form gen smsOk).resp) :
    t = noTrackLine ∨ t = sorryLine ∨ t = wrongLine ∨
    (∃ instr, t = ai_reply instr gen) ∨ (∃ tp, t = confirmLine tp) := by
  by_cases hc : pyTruthy form.callSid = false
  · rw [turn_no_callsid cfg store form gen smsOk hc] at hmem
    simp only [List.mem_cons, List.not_mem_nil, or_false, Verb.say.injEq] at hmem
    rcases hmem with ⟨h, -⟩ | h
    · exact Or.inl h
    · cases h
  · obtain ⟨sid, hsid, hne⟩ : ∃ sid, form.callSid = some sid ∧ sid ≠ "" := by
      cases h : form.callSid with
      | none => rw [h] at hc; exact absurd rfl hc
      | some s =>
        refine ⟨s, rfl, ?_⟩
        intro h0
        subst h0
        rw [h] at hc
        exact hc (by decide)
    by_cases hg : get_speech form = "" ∧ ((store sid).getD initState).step = 0 ∧
        form.speechResultUC = none
    · rw [turn_greeting cfg store form gen smsOk sid _ hsid hne rfl hg.1 hg.2.1 hg.2.2]
        at hmem
      simp only [List.mem_cons, List.not_mem_nil, or_false, Verb.say.injEq] at hmem
      rcases hmem with h | ⟨h, -⟩
      · cases h
      · exact Or.inr (Or.inl h)
    · by_cases h0 : ((store sid).getD initState).step = 0
      · have hguard : ¬(get_speech form = "" ∧ form.speechResultUC = none) :=
          fun hx => hg ⟨hx.1, h0, hx.2⟩
        rw [turn_step0 cfg store form gen smsOk sid _ hsid hne rfl h0 hguard] at hmem
        simp only [List.mem_cons, List.not_mem_nil, or_false, Verb.say.injEq] at hmem
        rcases hmem with ⟨h, -⟩ | h | ⟨h, -⟩
        · exact Or.inr (Or.inr (Or.inr (Or.inl ⟨_, h⟩)))
        · cases h
        · exact Or.inr (Or.inl h)
      · by_cases h1 : ((store sid).getD initState).step = 1
        · rw [turn_step1 cfg store form gen smsOk sid _ hsid hne rfl h1] at hmem
          simp only [List.mem_cons, List.not_mem_nil, or_false, Verb.say.injEq] at hmem
          rcases hmem with ⟨h, -⟩ | h | ⟨h, -⟩
          · exact Or.inr (Or.inr (Or.inr (Or.inl ⟨_, h⟩)))
          · cases h
          · exact Or.inr (Or.inl h)
        · by_cases h2 : ((store sid).getD initState).step = 2
          · rw [turn_step2 cfg store form gen smsOk sid _ hsid hne rfl h2] at hmem
            simp only [List.mem_cons, List.not_mem_nil, or_false, Verb.say.injEq] at hmem
            rcases hmem with ⟨h, -⟩ | h
            · exact Or.inr (Or.inr (Or.inr (Or.inr ⟨_, h⟩)))
            · cases h
          · rw [turn_fallback_step cfg store form gen smsOk sid _ hsid hne rfl h0 h1 h2]
              at hmem
            simp only [List.mem_cons, List.not_mem_nil, or_false, Verb.say.injEq] at hmem
            rcases hmem with ⟨h, -⟩ | h
            · exact Or.inr (Or.inr (Or.inl h))
            · cases h

/-- C4: on any failure of the generation call, `ai_reply` returns the fixed
non-empty fallback utterance; the `call_state` store and the SMS dispatched
by a webhook turn do not depend on the generation oracle at all (the state
machine advances exactly as on success); and with a failing oracle every
spoken utterance of the turn is still non-empty. -/
theorem C4_generation_failure_safe :
    (∀ instr (gen : GenOracle), gen instr = .error () →
      ai_reply instr gen = "Got you. I can help with that.") ∧
    ("Got you. I can help with that." ≠ "") ∧
    (∀ (cfg : Config) (store : Store) (form : Form) (smsOk : Bool)
        (gen gen2 : GenOracle),
      (twilio_voice cfg store form gen smsOk).store =
        (twilio_voice cfg store form gen2 smsOk).store ∧
      (twilio_voice cfg store form gen smsOk).sms =
        (twilio_voice cfg store form gen2 smsOk).sms) ∧
    (∀ (cfg : Config) (store : Store) (form : Form) (smsOk : Bool)
        (gen : GenOracle), (∀ i, gen i = .error ()) →
      ∀ t v, Verb.say t v ∈ (twilio_voice cfg store form gen smsOk).resp → t ≠ "") := by
  refine ⟨?_, by decide, ?_, ?_⟩
  · intro instr gen h
    unfold ai_reply
    rw [h]
  · intro cfg store form smsOk gen gen2
    unfold twilio_voice
    dsimp only
    split_ifs <;> exact ⟨rfl, rfl⟩
  · intro cfg store form smsOk gen hfail t v hmem
    rcases turn_resp_says cfg store form gen smsOk t v hmem with h | h | h | ⟨i, h⟩ | ⟨tp, h⟩
    · subst h; decide
    · subst h; decide
    · subst h; decide
    · subst h
      unfold ai_reply
      rw [hfail i]
      decide
    · subst h
      exact confirmLine_ne_empty tp

theorem C4_generation_failure_safe_witness :
    ai_reply (instruction0 "a taper") genErr = "Got you. I can help with that." :=
  C4_generation_failure_safe.1 (instruction0 "a taper") genErr rfl

/-- C5: on a terminal (step-2) turn, the say-and-hang-up response and the
session removal are identical whatever the SMS dispatch outcome and whatever
configuration is present; a missing booking URL, origin number, destination
number, or a failed dispatch just degrades the handoff to a no-op. -/
theorem C5_terminal_dispatch_independent (store : Store) (form : Form)
    (gen : GenOracle) (sid : String) (st : CallState)
    (hsid : form.callSid = some sid) (hne : sid ≠ "")
    (hstore : store sid = some st) (hstep : st.step = 2) :
    ∀ (cfg cfg2 : Config) (smsOk smsOk2 : Bool),
      (twilio_voice cfg store form gen smsOk).resp =
        [Verb.say (confirmLine (pyOrOpt (get_speech form) st.time_pref)) pollyVoice,
         Verb.hangup] ∧
      (twilio_voice cfg2 store form gen smsOk2).resp =
        (twilio_voice cfg store form gen smsOk).resp ∧
      (twilio_voice cfg store form gen smsOk).store sid = none ∧
      (smsOk = false → (twilio_voice cfg store form gen smsOk).sms = none) ∧
      (cfg.bookingUrl = none → (twilio_voice cfg store form gen smsOk).sms = none) ∧
      (cfg.twilioNumber = none → (twilio_voice cfg store form gen smsOk).sms = none) ∧
      (form.fromNumber = none → (twilio_voice cfg store form gen smsOk).sms = none) := by
  intro cfg cfg2 smsOk smsOk2
  have hst : (store sid).getD initState = st := by rw [hstore]; rfl
  rw [turn_step2 cfg store form gen smsOk sid st hsid hne hst hstep,
      turn_step2 cfg2 store form gen smsOk2 sid st hsid hne hst hstep]
  refine ⟨rfl, rfl, storePop_same store sid, ?_, ?_, ?_, ?_⟩
  · intro h
    rw [h]
    simp
  · intro h
    rw [h]
    simp [pyTruthy]
  · intro h
    rw [h]
    simp [pyTruthy]
  · intro h
    rw [h]
    simp [pyTruthy]

theorem C5_terminal_dispatch_independent_witness :
    (twilio_voice cfgA storeC5 formC5 genErr false).sms = none :=
  ((C5_terminal_dispatch_independent storeC5 formC5 genErr "CA5" stC5 rfl (by decide)
    (by decide) rfl) cfgA cfgA false false).2.2.2.1 rfl

/-- C9: every slot assignment has the form `speech or state[slot]`: a turn
with empty extracted speech leaves all three slots of the session exactly as
they were, and in general each slot either keeps its previous value or is
overwritten with a non-empty string — a filled slot is never reset to null
nor overwritten with an empty value. -/
theorem C9_slots_never_cleared (cfg : Config) (store : Store) (form : Form)
    (gen : GenOracle) (smsOk : Bool) (sid : String) (st st2 : CallState)
    (hsid : form.callSid = some sid) (hne : sid ≠ "")
    (hstore : store sid = some st)
    (hsess : (twilio_voice cfg store form gen smsOk).sess = some st2) :
    (get_speech form = "" →
      st2.service = st.service ∧ st2.name = st.name ∧ st2.time_pref = st.time_pref) ∧
    (st2.service = st.service ∨ ∃ w, w ≠ "" ∧ st2.service = some w) ∧
    (st2.name = st.name ∨ ∃ w, w ≠ "" ∧ st2.name = some w) ∧
    (st2.time_pref = st.time_pref ∨ ∃ w, w ≠ "" ∧ st2.time_pref = some w) := by
  have hst : (store sid).getD initState = st := by rw [hstore]; rfl
  by_cases hg : get_speech form = "" ∧ st.step = 0 ∧ form.speechResultUC = none
  · rw [turn_greeting cfg store form gen smsOk sid st hsid hne hst hg.1 hg.2.1 hg.2.2]
      at hsess
    cases hsess
    exact ⟨fun _ => ⟨rfl, rfl, rfl⟩, Or.inl rfl, Or.inl rfl, Or.inl rfl⟩
  · by_cases h0 : st.step = 0
    · have hguard : ¬(get_speech form = "" ∧ form.speechResultUC = none) :=
        fun hx => hg ⟨hx.1, h0, hx.2⟩
      rw [turn_step0 cfg store form gen smsOk sid st hsid hne hst h0 hguard] at hsess
      cases hsess
      refine ⟨?_, ?_, Or.inl rfl, Or.inl rfl⟩
      · intro hsp
        rw [hsp, pyOrOpt_empty]
        exact ⟨rfl, rfl, rfl⟩
      · rcases pyOrOpt_cases (get_speech form) st.service with h | ⟨hne2, h⟩
        · exact Or.inl h
        · exact Or.inr ⟨get_speech form, hne2, h⟩
    · by_cases h1 : st.step = 1
      · rw [turn_step1 cfg store form gen smsOk sid st hsid hne hst h1] at hsess
        cases hsess
        refine ⟨?_, Or.inl rfl, ?_, Or.inl rfl⟩
        · intro hsp
          rw [hsp, pyOrOpt_empty]
          exact ⟨rfl, rfl, rfl⟩
        · rcases pyOrOpt_cases (get_speech form) st.name with h | ⟨hne2, h⟩
          · exact Or.inl h
          · exact Or.inr ⟨get_speech form, hne2, h⟩
      · by_cases h2 : st.step = 2
        · rw [turn_step2 cfg store form gen smsOk sid st hsid hne hst h2] at hsess
          cases hsess
          refine ⟨?_, Or.inl rfl, Or.inl rfl, ?_⟩
          · intro hsp
            rw [hsp, pyOrOpt_empty]
            exact ⟨rfl, rfl, rfl⟩
          · rcases pyOrOpt_cases (get_speech form) st.time_pref with h | ⟨hne2, h⟩
            · exact Or.inl h
            · exact Or.inr ⟨get_speech form, hne2, h⟩
        · rw [turn_fallback_step cfg store form gen smsOk sid st hsid hne hst h0 h1 h2]
            at hsess
          cases hsess
          exact ⟨fun _ => ⟨rfl, rfl, rfl⟩, Or.inl rfl, Or.inl rfl, Or.inl rfl⟩

theorem C9_slots_never_cleared_witness :
    (get_speech formC9 = "" →
      stC9b.service = stC9.service ∧ stC9b.name = stC9.name ∧
        stC9b.time_pref = stC9.time_pref) ∧
    (stC9b.service = stC9.service ∨ ∃ w, w ≠ "" ∧ stC9b.service = some w) ∧
    (stC9b.name = stC9.name ∨ ∃ w, w ≠ "" ∧ stC9b.name = some w) ∧
    (stC9b.time_pref = stC9.time_pref ∨ ∃ w, w ≠ "" ∧ stC9b.time_pref = some w) :=
  C9_slots_never_cleared cfgA storeC9 formC9 genErr true "CA9" stC9 stC9b rfl
    (by decide) (by decide) (by decide)

/-- C1 counterexample: at step 1 a webhook turn with present-but-empty speech
does NOT get an apology-and-hangup and the session is NOT removed — the
handler advances the session to step 2 (leaving `name` null) and keeps it in
the store, contradicting the claim at this concrete input. -/
theorem C1_counterexample :
    Verb.hangup ∉ (twilio_voice cfgA storeC1 formC1 genErr true).resp ∧
    (twilio_voice cfgA storeC1 formC1 genErr true).store "CA1" =
      some { step := 2, service := some "cut", name := none, time_pref := none } := by
  decide

/-- C1 amended: on a webhook turn with empty extracted speech after the
initial greeting, the handler fills no slot (in particular at step 1 `name`
stays as it was, null if previously null), but it does not apologise and hang
up at steps 0 and 1: it advances the step by one, keeps the session in the
store and prompts for the next item; only at step 2 does it hang up and
remove the session, and there it speaks the normal closing confirmation
rather than an apology, with all slots unchanged. -/
theorem C1_amended_empty_speech (cfg : Config) (store : Store) (form : Form)
    (gen : GenOracle) (smsOk : Bool) (sid : String) (st : CallState)
    (hsid : form.callSid = some sid) (hne : sid ≠ "")
    (hstore : store sid = some st) (hsp : get_speech form = "") :
    (st.step = 0 → form.speechResultUC ≠ none →
      (twilio_voice cfg store form gen smsOk).store sid = some { st with step := 1 } ∧
      Verb.hangup ∉ (twilio_voice cfg store form gen smsOk).resp) ∧
    (st.step = 1 →
      (twilio_voice cfg store form gen smsOk).store sid = some { st with step := 2 } ∧
      Verb.hangup ∉ (twilio_voice cfg store form gen smsOk).resp ∧
      Verb.gather 5 "/twilio/voice" "POST" timePrompt pollyVoice ∈
        (twilio_voice cfg store form gen smsOk).resp) ∧
    (st.step = 2 →
      (twilio_voice cfg store form gen smsOk).resp =
        [Verb.say (confirmLine st.time_pref) pollyVoice, Verb.hangup] ∧
      (twilio_voice cfg store form gen smsOk).store sid = none ∧
      (twilio_voice cfg store form gen smsOk).sess = some st) := by
  have hst : (store sid).getD initState = st := by rw [hstore]; rfl
  refine ⟨?_, ?_, ?_⟩
  · intro h0 huc
    have hguard : ¬(get_speech form = "" ∧ form.speechResultUC = none) :=
      fun hx => huc hx.2
    rw [turn_step0 cfg store form gen smsOk sid st hsid hne hst h0 hguard]
    rw [hsp, pyOrOpt_empty]
    exact ⟨storeSet_same store sid _, by simp⟩
  · intro h1
    rw [turn_step1 cfg store form gen smsOk sid st hsid hne hst h1]
    rw [hsp, pyOrOpt_empty]
    exact ⟨storeSet_same store sid _, by simp, by simp⟩
  · intro h2
    rw [turn_step2 cfg store form gen smsOk sid st hsid hne hst h2]
    rw [hsp, pyOrOpt_empty]
    exact ⟨rfl, storePop_same store sid, rfl⟩

theorem C1_amended_empty_speech_witness :
    (twilio_voice cfgA storeC1 formC1 genErr true).store "CA1" =
      some { stC1 with step := 2 } ∧
    Verb.hangup ∉ (twilio_voice cfgA storeC1 formC1 genErr true).resp ∧
    Verb.gather 5 "/twilio/voice" "POST" timePrompt pollyVoice ∈
      (twilio_voice cfgA storeC1 formC1 genErr true).resp :=
  (C1_amended_empty_speech cfgA storeC1 formC1 genErr true "CA1" stC1 rfl (by decide)
    (by decide) (by decide)).2.1 rfl

lemma optCount_eq_zero (o : Option String) (h : optCount o = 0) : o = none := by
  cases o with
  | none => rfl
  | some v => simp [optCount] at h

lemma optCount_pyOrOpt_le (sp : String) (o : Option String) :
    optCount (pyOrOpt sp o) ≤ optCount o + 1 := by
  rcases pyOrOpt_cases sp o with h | ⟨-, h⟩ <;> rw [h] <;> simp [optCount]

/-- A webhook turn only touches the session of its own CallSid. -/
lemma turn_other_keys (cfg : Config) (store : Store) (form : Form) (gen : GenOracle)
    (smsOk : Bool) (k : String) (h : ∀ s, form.callSid = some s → k ≠ s) :
    (twilio_voice cfg store form gen smsOk).store k = store k := by
  by_cases hc : pyTruthy form.callSid = false
  · rw [turn_no_callsid cfg store form gen smsOk hc]
  · obtain ⟨sid, hsid, hne⟩ : ∃ sid, form.callSid = some sid ∧ sid ≠ "" := by
      cases hcs : form.callSid with
      | none => rw [hcs] at hc; exact absurd rfl hc
      | some s =>
        refine ⟨s, rfl, ?_⟩
        intro h0
        subst h0
        rw [hcs] at hc
        exact hc (by decide)
    have hk : k ≠ sid := h sid hsid
    by_cases hg : get_speech form = "" ∧ ((store sid).getD initState).step = 0 ∧
        form.speechResultUC = none
    · rw [turn_greeting cfg store form gen smsOk sid _ hsid hne rfl hg.1 hg.2.1 hg.2.2]
      exact storeSet_other store sid k _ hk
    · by_cases h0 : ((store sid).getD initState).step = 0
      · rw [turn_step0 cfg store form gen smsOk sid _ hsid hne rfl h0
          (fun hx => hg ⟨hx.1, h0, hx.2⟩)]
        exact storeSet_other store sid k _ hk
      · by_cases h1 : ((store sid).getD initState).step = 1
        · rw [turn_step1 cfg store form gen smsOk sid _ hsid hne rfl h1]
          exact storeSet_other store sid k _ hk
        · by_cases h2 : ((store sid).getD initState).step = 2
          · rw [turn_step2 cfg store form gen smsOk sid _ hsid hne rfl h2]
            exact storePop_other store sid k hk
          · rw [turn_fallback_step cfg store form gen smsOk sid _ hsid hne rfl h0 h1 h2]
            exact storePop_other store sid k hk

lemma storeInv_empty : StoreInv emptyStore := by
  intro sid st h
  simp [emptyStore] at h

/-- One webhook turn preserves the store invariant. -/
lemma storeInv_preserved (cfg : Config) (store : Store) (form : Form) (gen : GenOracle)
    (smsOk : Bool) (hinv : StoreInv store) :
    StoreInv ((twilio_voice cfg store form gen smsOk).store) := by
  by_cases hc : pyTruthy form.callSid = false
  · rw [turn_no_callsid cfg store form gen smsOk hc]
    exact hinv
  · obtain ⟨sid, hsid, hne⟩ : ∃ sid, form.callSid = some sid ∧ sid ≠ "" := by
      cases hcs : form.callSid with
      | none => rw [hcs] at hc; exact absurd rfl hc
      | some s =>
        refine ⟨s, rfl, ?_⟩
        intro h0
        subst h0
        rw [hcs] at hc
        exact hc (by decide)
    intro k stk hk
    by_cases hks : k = sid
    · subst hks
      have hstinv : (slotCount ((store k).getD initState) : Int) ≤
          ((store k).getD initState).step ∧ ((store k).getD initState).step ≤ 2 := by
        cases h : store k with
        | none => simp [initState, slotCount, optCount]
        | some s =>
          simp only [Option.getD_some]
          exact hinv k s h
      by_cases hg : get_speech form = "" ∧ ((store k).getD initState).step = 0 ∧
          form.speechResultUC = none
      · rw [turn_greeting cfg store form gen smsOk k _ hsid hne rfl hg.1 hg.2.1 hg.2.2]
          at hk
        simp only [storeSet_same, Option.some.injEq] at hk
        subst hk
        exact hstinv
      · by_cases h0 : ((store k).getD initState).step = 0
        · rw [turn_step0 cfg store form gen smsOk k _ hsid hne rfl h0
            (fun hx => hg ⟨hx.1, h0, hx.2⟩)] at hk
          simp only [storeSet_same, Option.some.injEq] at hk
          subst hk
          have hz : slotCount ((store k).getD initState) = 0 := by
            have h1 := hstinv.1
            rw [h0] at h1
            omega
          have hn : ((store k).getD initState).name = none := by
            apply optCount_eq_zero
            unfold slotCount at hz
            omega
          have ht : ((store k).getD initState).time_pref = none := by
            apply optCount_eq_zero
            unfold slotCount at hz
            omega
          have hs : optCount ((store k).getD initState).service = 0 := by
            unfold slotCount at hz
            omega
          constructor
          · show (slotCount _ : Int) ≤ _
            have hle := optCount_pyOrOpt_le (get_speech form)
              ((store k).getD initState).service
            simp only [slotCount, hn, ht, optCount] at *
            push_cast
            omega
          · show (1 : Int) ≤ 2
            omega
        · by_cases h1 : ((store k).getD initState).step = 1
          · rw [turn_step1 cfg store form gen smsOk k _ hsid hne rfl h1] at hk
            simp only [storeSet_same, Option.some.injEq] at hk
            subst hk
            have hb := hstinv.1
            rw [h1] at hb
            have hle := optCount_pyOrOpt_le (get_speech form)
              ((store k).getD initState).name
            constructor
            · show (slotCount _ : Int) ≤ _
              simp only [slotCount] at *
              push_cast
              push_cast at hb
              omega
            · show (2 : Int) ≤ 2
              omega
          · by_cases h2 : ((store k).getD initState).step = 2
            · rw [turn_step2 cfg store form gen smsOk k _ hsid hne rfl h2] at hk
              simp [storePop_same] at hk
            · rw [turn_fallback_step cfg store form gen smsOk k _ hsid hne rfl h0 h1 h2]
                at hk
              simp [storePop_same] at hk
    · rw [turn_other_keys cfg store form gen smsOk k
        (fun s hs => by rw [hsid] at hs; cases hs; exact hks)] at hk
      exact hinv k stk hk

/-- Every reachable store satisfies the invariant. -/
lemma reachable_storeInv (cfg : Config) (store : Store) (h : Reachable cfg store) :
    StoreInv store := by
  induction h with
  | init => exact storeInv_empty
  | step store form gen smsOk hr ih => exact storeInv_preserved cfg store form gen smsOk ih

/-- C2 counterexample: the store reached from the empty store by one webhook
turn with present-but-empty speech holds a session with `step = 1` but zero
filled slots, so the claimed equality "non-null slots = step" fails on a
reachable state. -/
theorem C2_counterexample :
    Reachable cfgA (twilio_voice cfgA emptyStore formC2 genErr true).store ∧
    (twilio_voice cfgA emptyStore formC2 genErr true).store "CA2" =
      some { step := 1, service := none, name := none, time_pref := none } ∧
    ¬((slotCount { step := 1, service := none, name := none, time_pref := none } : Int) =
      ({ step := 1, service := none, name := none, time_pref := none } : CallState).step) :=
  ⟨Reachable.step emptyStore formC2 genErr true Reachable.init, by decide, by decide⟩

/-- C2 amended: for every reachable session state the number of non-null
slots is at most the session's `step` (equality can fail, because a turn with
empty usable speech still advances the step without filling a slot), and
`step` stays in `{0, 1, 2}`; across any webhook turn a surviving session's
`step` never decreases — it stays equal or increases by exactly one. -/
theorem C2_amended_invariant :
    (∀ (cfg : Config) (store : Store), Reachable cfg store →
      ∀ sid st, store sid = some st → (slotCount st : Int) ≤ st.step ∧ st.step ≤ 2) ∧
    (∀ (cfg : Config) (store : Store) (form : Form) (gen : GenOracle) (smsOk : Bool)
        (sid : String) (st : CallState), store sid = some st →
      (twilio_voice cfg store form gen smsOk).store sid = none ∨
      ∃ st2, (twilio_voice cfg store form gen smsOk).store sid = some st2 ∧
        (st2.step = st.step ∨ st2.step = st.step + 1)) := by
  constructor
  · intro cfg store hr sid st hst
    exact reachable_storeInv cfg store hr sid st hst
  · intro cfg store form gen smsOk sid st hstore
    by_cases hc : pyTruthy form.callSid = false
    · rw [turn_no_callsid cfg store form gen smsOk hc]
      exact Or.inr ⟨st, hstore, Or.inl rfl⟩
    · obtain ⟨sid2, hsid2, hne2⟩ : ∃ s, form.callSid = some s ∧ s ≠ "" := by
        cases hcs : form.callSid with
        | none => rw [hcs] at hc; exact absurd rfl hc
        | some s =>
          refine ⟨s, rfl, ?_⟩
          intro h0
          subst h0
          rw [hcs] at hc
          exact hc (by decide)
      by_cases hss : sid = sid2
      · subst hss
        have hst : (store sid).getD initState = st := by rw [hstore]; rfl
        by_cases hg : get_speech form = "" ∧ st.step = 0 ∧ form.speechResultUC = none
        · rw [turn_greeting cfg store form gen smsOk sid st hsid2 hne2 hst hg.1 hg.2.1
            hg.2.2]
          exact Or.inr ⟨st, storeSet_same store sid st, Or.inl rfl⟩
        · by_cases h0 : st.step = 0
          · rw [turn_step0 cfg store form gen smsOk sid st hsid2 hne2 hst h0
              (fun hx => hg ⟨hx.1, h0, hx.2⟩)]
            refine Or.inr ⟨_, storeSet_same store sid _, Or.inr ?_⟩
            show (1 : Int) = st.step + 1
            omega
          · by_cases h1 : st.step = 1
            · rw [turn_step1 cfg store form gen smsOk sid st hsid2 hne2 hst h1]
              refine Or.inr ⟨_, storeSet_same store sid _, Or.inr ?_⟩
              show (2 : Int) = st.step + 1
              omega
            · by_cases h2 : st.step = 2
              · rw [turn_step2 cfg store form gen smsOk sid st hsid2 hne2 hst h2]
                exact Or.inl (storePop_same store sid)
              · rw [turn_fallback_step cfg store form gen smsOk sid st hsid2 hne2 hst
                  h0 h1 h2]
                exact Or.inl (storePop_same store sid)
      · rw [turn_other_keys cfg store form gen smsOk sid
          (fun s hs => by rw [hsid2] at hs; cases hs; exact hss)]
        exact Or.inr ⟨st, hstore, Or.inl rfl⟩

theorem C2_amended_invariant_witness :
    (slotCount { step := 1, service := none, name := none, time_pref := none } : Int) ≤
      ({ step := 1, service := none, name := none, time_pref := none } : CallState).step ∧
    ({ step := 1, service := none, name := none, time_pref := none } : CallState).step ≤ 2 :=
  C2_amended_invariant.1 cfgA (twilio_voice cfgA emptyStore formC2 genErr true).store
    (Reachable.step emptyStore formC2 genErr true Reachable.init) "CA2"
    { step := 1, service := none, name := none, time_pref := none } (by decide)

/-- C3: a fresh call whose three consecutive turns carry non-empty speech
`s1, s2, s3` advances 0 → 1 → 2 → terminal: turn 1 stores `service = s1` and
prompts for the name, turn 2 stores `name = s2` and prompts for the time,
turn 3 stores `time_pref = s3`, speaks the closing line, hangs up, dispatches
the booking SMS built from the stored `service`/`time_pref`, and removes the
session from the store. -/
theorem C3_happy_path (cfg : Config) (store : Store) (gen1 gen2 gen3 : GenOracle)
    (smsOk1 smsOk2 : Bool) (sid : String) (form1 form2 form3 : Form)
    (s1 s2 s3 tn bu fn : String)
    (hsid1 : form1.callSid = some sid) (hsid2 : form2.callSid = some sid)
    (hsid3 : form3.callSid = some sid) (hne : sid ≠ "")
    (hfresh : store sid = none)
    (hs1 : get_speech form1 = s1) (hn1 : s1 ≠ "")
    (hs2 : get_speech form2 = s2) (hn2 : s2 ≠ "")
    (hs3 : get_speech form3 = s3) (hn3 : s3 ≠ "")
    (htn : cfg.twilioNumber = some tn) (htn2 : tn ≠ "")
    (hbu : cfg.bookingUrl = some bu) (hbu2 : bu ≠ "")
    (hfn : form3.fromNumber = some fn) (hfn2 : fn ≠ "") :
    let r1 := twilio_voice cfg store form1 gen1 smsOk1
    let r2 := twilio_voice cfg r1.store form2 gen2 smsOk2
    let r3 := twilio_voice cfg r2.store form3 gen3 true
    r1.store sid =
      some { step := 1, service := some s1, name := none, time_pref := none } ∧
    r1.resp = [Verb.say (ai_reply (instruction0 s1) gen1) pollyVoice,
               Verb.gather 5 "/twilio/voice" "POST" namePrompt pollyVoice,
               Verb.say sorryLine pollyVoice] ∧
    r2.store sid =
      some { step := 2, service := some s1, name := some s2, time_pref := none } ∧
    r2.resp = [Verb.say (ai_reply (instruction1 (some s2)) gen2) pollyVoice,
               Verb.gather 5 "/twilio/voice" "POST" timePrompt pollyVoice,
               Verb.say sorryLine pollyVoice] ∧
    r3.resp = [Verb.say (confirmLine (some s3)) pollyVoice, Verb.hangup] ∧
    r3.store sid = none ∧
    r3.sess =
      some { step := 2, service := some s1, name := some s2, time_pref := some s3 } ∧
    r3.sms = some { body := smsBody (some s1) (some s3) bu, fromNum := tn, toNum := fn } := by
  dsimp only
  have hp1 : pyOrOpt s1 initState.service = some s1 := by simp [pyOrOpt, hn1, initState]
  have e1 := turn_step0 cfg store form1 gen1 smsOk1 sid initState hsid1 hne
    (by rw [hfresh]; rfl) rfl (fun hx => hn1 (hs1.symm.trans hx.1))
  rw [hs1, hp1] at e1
  simp only [initState] at e1
  rw [e1]
  have hp2 : pyOrOpt s2
      ({ step := 1, service := some s1, name := none, time_pref := none } : CallState).name =
      some s2 := by simp [pyOrOpt, hn2]
  have e2 := turn_step1 cfg
    (storeSet store sid { step := 1, service := some s1, name := none, time_pref := none })
    form2 gen2 smsOk2 sid
    { step := 1, service := some s1, name := none, time_pref := none }
    hsid2 hne (by rw [storeSet_same]; rfl) rfl
  rw [hs2, hp2] at e2
  rw [e2]
  dsimp only
  have hp3 : pyOrOpt s3
      ({ step := 2, service := some s1, name := some s2, time_pref := none } : CallState).time_pref =
      some s3 := by simp [pyOrOpt, hn3]
  have e3 := turn_step2 cfg
    (storeSet
      (storeSet store sid { step := 1, service := some s1, name := none, time_pref := none })
      sid { step := 2, service := some s1, name := some s2, time_pref := none })
    form3 gen3 true sid
    { step := 2, service := some s1, name := some s2, time_pref := none }
    hsid3 hne (by rw [storeSet_same]; rfl) rfl
  rw [hs3, hp3, hfn, htn, hbu] at e3
  rw [e3]
  dsimp only
  have hcond : (pyTruthy (some fn) && pyTruthy (some tn) && pyTruthy (some bu) && true)
      = true := by
    simp [pyTruthy, Bool.and_eq_true, bne_iff_ne, hfn2, htn2, hbu2]
  refine ⟨?_, ?_, ?_, ?_, ?_, ?_, ?_, ?_⟩
  · exact storeSet_same store sid _
  · rfl
  · exact storeSet_same _ sid _
  · rfl
  · rfl
  · exact storePop_same _ sid
  · rfl
  · rw [if_pos hcond]
    rfl

theorem C3_happy_path_witness :
    (twilio_voice cfgA
      (twilio_voice cfgA
        (twilio_voice cfgA emptyStore formC3a genOk true).store formC3b genOk true).store
      formC3c genOk true).sms =
      some { body := smsBody (some "taper and line up") (some "Saturday at 2")
               "https://booking.example/link",
             fromNum := "+15551230000", toNum := "+15557654321" } :=
  (C3_happy_path cfgA emptyStore genOk genOk genOk true true "CA3" formC3a formC3b formC3c
    "taper and line up" "Marcus" "Saturday at 2" "+15551230000"
    "https://booking.example/link" "+15557654321"
    rfl rfl rfl (by decide) rfl (by decide) (by decide) (by decide) (by decide)
    (by decide) (by decide) rfl (by decide) rfl (by decide) rfl
    (by decide)).2.2.2.2.2.2.2
